import Mathlib

/-!
Shallow embedding of the transcription pipeline of `src/app.py`
(`WhisperTranscriber`): timestamp formatters, segment export renderers,
title sanitizer, model-handle cache and the two orchestrator entry points
(`process_youtube_url`, `process_file_upload`).

Conventions of the embedding:
* Python floats carrying seconds offsets are modelled as rationals `ℚ`
  (every literal appearing in the spec, e.g. `3661.25`, is exactly
  representable, so the float/rational gap is irrelevant here).
* `int(x)` is truncation toward zero (`pyInt`), `x // y` is floor
  division (`pyFloorDiv`), `x % y` is Python's modulo
  (`pyMod`, sign of the divisor; all call sites use positive divisors).
* `str.strip()` is `pyStrip` (drop whitespace from both ends).
* Generator functions are modelled by the list of values they yield;
  a plain `return` inside a generator yields nothing, so it maps
  to the empty list.
* External library calls (yt-dlp download, whisper inference,
  `json.dumps`, `datetime.now()`, the temp directory) enter the
  embedding as explicit parameters recording their outcome.
-/

/-- Python `int(q)` on a rational: truncation toward zero. -/
def pyInt (q : ℚ) : ℤ := if 0 ≤ q then ⌊q⌋ else -⌊-q⌋

/-- Python `a // b` (floor division) on rationals, as used with positive divisors. -/
def pyFloorDiv (a b : ℚ) : ℚ := ((⌊a / b⌋ : ℤ) : ℚ)

/-- Python `a % b` on rationals: `a - b * (a // b)`, as used with positive divisors. -/
def pyMod (a b : ℚ) : ℚ := a - b * ((⌊a / b⌋ : ℤ) : ℚ)

/-- Python `str.strip()`: remove leading and trailing whitespace characters. -/
def pyStrip (s : String) : String :=
  ⟨((s.data.dropWhile Char.isWhitespace).reverse.dropWhile Char.isWhitespace).reverse⟩

/-- Python `f"{n:02d}"` for the nonnegative values produced by the formatters. -/
def pad2 (n : ℤ) : String :=
  if 0 ≤ n ∧ n < 10 then "0" ++ toString n else toString n

/-- Python `f"{n:03d}"` for the nonnegative values produced by the formatters. -/
def pad3 (n : ℤ) : String :=
  if 0 ≤ n ∧ n < 10 then "00" ++ toString n
  else if 0 ≤ n ∧ n < 100 then "0" ++ toString n
  else toString n

/-- One recognized utterance span (an element of whisper's `result["segments"]`). -/
structure Segment where
  start : ℚ
  «end» : ℚ
  text : String
deriving DecidableEq

/-- The structured transcription result returned by the inference engine:
`result["text"]`, `result.get("language")`, `result["segments"]`. -/
structure TranscriptionResult where
  text : String
  language : Option String
  segments : List Segment
deriving DecidableEq

/-- Source `format_timestamp` (src/app.py:301-306): seconds to `HH:MM:SS`. -/
def format_timestamp (seconds : ℚ) : String :=
  let hours := pyInt (pyFloorDiv seconds 3600)
  let minutes := pyInt (pyFloorDiv (pyMod seconds 3600) 60)
  let secs := pyInt (pyMod seconds 60)
  pad2 hours ++ ":" ++ pad2 minutes ++ ":" ++ pad2 secs

/-- Source `format_srt_timestamp` (src/app.py:318-324): seconds to `HH:MM:SS,mmm`. -/
def format_srt_timestamp (seconds : ℚ) : String :=
  let hours := pyInt (pyFloorDiv seconds 3600)
  let minutes := pyInt (pyFloorDiv (pyMod seconds 3600) 60)
  let secs := pyInt (pyMod seconds 60)
  let millis := pyInt (pyMod seconds 1 * 1000)
  pad2 hours ++ ":" ++ pad2 minutes ++ ":" ++ pad2 secs ++ "," ++ pad3 millis

/-- Source `format_vtt_timestamp` (src/app.py:336-342): seconds to `HH:MM:SS.mmm`. -/
def format_vtt_timestamp (seconds : ℚ) : String :=
  let hours := pyInt (pyFloorDiv seconds 3600)
  let minutes := pyInt (pyFloorDiv (pyMod seconds 3600) 60)
  let secs := pyInt (pyMod seconds 60)
  let millis := pyInt (pyMod seconds 1 * 1000)
  pad2 hours ++ ":" ++ pad2 minutes ++ ":" ++ pad2 secs ++ "." ++ pad3 millis

/-- Source `format_with_timestamps` (src/app.py:291-299): one line per segment. -/
def format_with_timestamps (segments : List Segment) : String :=
  String.intercalate "\n" (segments.map fun segment =>
    "[" ++ format_timestamp segment.start ++ " -> " ++
      format_timestamp segment.«end» ++ "] " ++ pyStrip segment.text)

/-- The block appended for one segment in `format_srt`
(the f-string of src/app.py:315, with the 1-based index `i`). -/
def srt_block (i : ℕ) (segment : Segment) : String :=
  toString i ++ "\n" ++ format_srt_timestamp segment.start ++ " --> " ++
    format_srt_timestamp segment.«end» ++ "\n" ++ pyStrip segment.text ++ "\n"

/-- Source `format_srt` (src/app.py:308-316): blocks for
`enumerate(segments, 1)`, joined with a newline. -/
def format_srt (segments : List Segment) : String :=
  String.intercalate "\n" ((List.enumFrom 1 segments).map fun p => srt_block p.1 p.2)

/-- Source `format_vtt` (src/app.py:326-334): header `"WEBVTT\n"` then one
block per segment, joined with a newline. -/
def format_vtt (segments : List Segment) : String :=
  String.intercalate "\n" ("WEBVTT\n" :: segments.map fun segment =>
    format_vtt_timestamp segment.start ++ " --> " ++
      format_vtt_timestamp segment.«end» ++ "\n" ++ pyStrip segment.text ++ "\n")

section TimestampFacts

lemma pyInt_intCast (n : ℤ) : pyInt ((n : ℤ) : ℚ) = n := by
  unfold pyInt
  rcases le_or_lt 0 n with h | h
  · rw [if_pos (by exact_mod_cast h), Int.floor_intCast]
  · have hn : ¬ (0 : ℚ) ≤ (n : ℚ) := by exact_mod_cast not_le.mpr h
    rw [if_neg hn, ← Int.cast_neg, Int.floor_intCast]
    omega

lemma pyInt_pyFloorDiv (a b : ℚ) : pyInt (pyFloorDiv a b) = ⌊a / b⌋ := by
  unfold pyFloorDiv; exact pyInt_intCast _

lemma floor_eq_of (a : ℚ) (n : ℤ) (h1 : (n : ℚ) ≤ a) (h2 : a < n + 1) : ⌊a⌋ = n :=
  Int.floor_eq_iff.mpr ⟨h1, by exact_mod_cast h2⟩

lemma pyInt_eq_of_nonneg (q : ℚ) (n : ℤ) (h0 : 0 ≤ q) (h1 : (n : ℚ) ≤ q)
    (h2 : q < n + 1) : pyInt q = n := by
  unfold pyInt; rw [if_pos h0]; exact floor_eq_of _ _ h1 h2

lemma format_srt_timestamp_eval (s : ℚ) (H M SS MS : ℤ)
    (hH : pyInt (pyFloorDiv s 3600) = H)
    (hM : pyInt (pyFloorDiv (pyMod s 3600) 60) = M)
    (hS : pyInt (pyMod s 60) = SS)
    (hMS : pyInt (pyMod s 1 * 1000) = MS) :
    format_srt_timestamp s = pad2 H ++ ":" ++ pad2 M ++ ":" ++ pad2 SS ++ "," ++ pad3 MS := by
  simp only [format_srt_timestamp]
  rw [hH, hM, hS, hMS]

lemma format_timestamp_eval (s : ℚ) (H M SS : ℤ)
    (hH : pyInt (pyFloorDiv s 3600) = H)
    (hM : pyInt (pyFloorDiv (pyMod s 3600) 60) = M)
    (hS : pyInt (pyMod s 60) = SS) :
    format_timestamp s = pad2 H ++ ":" ++ pad2 M ++ ":" ++ pad2 SS := by
  simp only [format_timestamp]
  rw [hH, hM, hS]

lemma format_vtt_timestamp_eval (s : ℚ) (H M SS MS : ℤ)
    (hH : pyInt (pyFloorDiv s 3600) = H)
    (hM : pyInt (pyFloorDiv (pyMod s 3600) 60) = M)
    (hS : pyInt (pyMod s 60) = SS)
    (hMS : pyInt (pyMod s 1 * 1000) = MS) :
    format_vtt_timestamp s = pad2 H ++ ":" ++ pad2 M ++ ":" ++ pad2 SS ++ "." ++ pad3 MS := by
  simp only [format_vtt_timestamp]
  rw [hH, hM, hS, hMS]

lemma comp_3661 :
    pyInt (pyFloorDiv (3661.25 : ℚ) 3600) = 1
    ∧ pyInt (pyFloorDiv (pyMod (3661.25 : ℚ) 3600) 60) = 1
    ∧ pyInt (pyMod (3661.25 : ℚ) 60) = 1
    ∧ pyInt (pyMod (3661.25 : ℚ) 1 * 1000) = 250 := by
  have f1 : ⌊(3661.25 : ℚ) / 3600⌋ = 1 := floor_eq_of _ _ (by norm_num) (by norm_num)
  have f2 : ⌊(3661.25 : ℚ) / 60⌋ = 61 := floor_eq_of _ _ (by norm_num) (by norm_num)
  have f3 : ⌊(3661.25 : ℚ) / 1⌋ = 3661 := floor_eq_of _ _ (by norm_num) (by norm_num)
  have m1 : pyMod (3661.25 : ℚ) 3600 = 61.25 := by rw [pyMod, f1]; norm_num
  have m2 : pyMod (3661.25 : ℚ) 60 = 1.25 := by rw [pyMod, f2]; norm_num
  have m3 : pyMod (3661.25 : ℚ) 1 = 0.25 := by rw [pyMod, f3]; norm_num
  refine ⟨?_, ?_, ?_, ?_⟩
  · rw [pyInt_pyFloorDiv, f1]
  · rw [m1, pyInt_pyFloorDiv]
    exact floor_eq_of _ _ (by norm_num) (by norm_num)
  · rw [m2]; exact pyInt_eq_of_nonneg _ _ (by norm_num) (by norm_num) (by norm_num)
  · rw [m3]; exact pyInt_eq_of_nonneg _ _ (by norm_num) (by norm_num) (by norm_num)

lemma comp_zero :
    pyInt (pyFloorDiv (0 : ℚ) 3600) = 0
    ∧ pyInt (pyFloorDiv (pyMod (0 : ℚ) 3600) 60) = 0
    ∧ pyInt (pyMod (0 : ℚ) 60) = 0
    ∧ pyInt (pyMod (0 : ℚ) 1 * 1000) = 0 := by
  have f1 : ⌊(0 : ℚ) / 3600⌋ = 0 := floor_eq_of _ _ (by norm_num) (by norm_num)
  have f2 : ⌊(0 : ℚ) / 60⌋ = 0 := floor_eq_of _ _ (by norm_num) (by norm_num)
  have f3 : ⌊(0 : ℚ) / 1⌋ = 0 := floor_eq_of _ _ (by norm_num) (by norm_num)
  have m1 : pyMod (0 : ℚ) 3600 = 0 := by rw [pyMod, f1]; norm_num
  have m2 : pyMod (0 : ℚ) 60 = 0 := by rw [pyMod, f2]; norm_num
  have m3 : pyMod (0 : ℚ) 1 = 0 := by rw [pyMod, f3]; norm_num
  refine ⟨?_, ?_, ?_, ?_⟩
  · rw [pyInt_pyFloorDiv, f1]
  · rw [m1, pyInt_pyFloorDiv]
    exact floor_eq_of _ _ (by norm_num) (by norm_num)
  · rw [m2]; exact pyInt_eq_of_nonneg _ _ (by norm_num) (by norm_num) (by norm_num)
  · rw [m3]; exact pyInt_eq_of_nonneg _ _ (by norm_num) (by norm_num) (by norm_num)

lemma comp_three_halves :
    pyInt (pyFloorDiv (1.5 : ℚ) 3600) = 0
    ∧ pyInt (pyFloorDiv (pyMod (1.5 : ℚ) 3600) 60) = 0
    ∧ pyInt (pyMod (1.5 : ℚ) 60) = 1
    ∧ pyInt (pyMod (1.5 : ℚ) 1 * 1000) = 500 := by
  have f1 : ⌊(1.5 : ℚ) / 3600⌋ = 0 := floor_eq_of _ _ (by norm_num) (by norm_num)
  have f2 : ⌊(1.5 : ℚ) / 60⌋ = 0 := floor_eq_of _ _ (by norm_num) (by norm_num)
  have f3 : ⌊(1.5 : ℚ) / 1⌋ = 1 := floor_eq_of _ _ (by norm_num) (by norm_num)
  have m1 : pyMod (1.5 : ℚ) 3600 = 1.5 := by rw [pyMod, f1]; norm_num
  have m2 : pyMod (1.5 : ℚ) 60 = 1.5 := by rw [pyMod, f2]; norm_num
  have m3 : pyMod (1.5 : ℚ) 1 = 0.5 := by rw [pyMod, f3]; norm_num
  refine ⟨?_, ?_, ?_, ?_⟩
  · rw [pyInt_pyFloorDiv, f1]
  · rw [m1, pyInt_pyFloorDiv]
    exact floor_eq_of _ _ (by norm_num) (by norm_num)
  · rw [m2]; exact pyInt_eq_of_nonneg _ _ (by norm_num) (by norm_num) (by norm_num)
  · rw [m3]; exact pyInt_eq_of_nonneg _ _ (by norm_num) (by norm_num) (by norm_num)

lemma comp_three :
    pyInt (pyFloorDiv (3 : ℚ) 3600) = 0
    ∧ pyInt (pyFloorDiv (pyMod (3 : ℚ) 3600) 60) = 0
    ∧ pyInt (pyMod (3 : ℚ) 60) = 3
    ∧ pyInt (pyMod (3 : ℚ) 1 * 1000) = 0 := by
  have f1 : ⌊(3 : ℚ) / 3600⌋ = 0 := floor_eq_of _ _ (by norm_num) (by norm_num)
  have f2 : ⌊(3 : ℚ) / 60⌋ = 0 := floor_eq_of _ _ (by norm_num) (by norm_num)
  have f3 : ⌊(3 : ℚ) / 1⌋ = 3 := floor_eq_of _ _ (by norm_num) (by norm_num)
  have m1 : pyMod (3 : ℚ) 3600 = 3 := by rw [pyMod, f1]; norm_num
  have m2 : pyMod (3 : ℚ) 60 = 3 := by rw [pyMod, f2]; norm_num
  have m3 : pyMod (3 : ℚ) 1 = 0 := by rw [pyMod, f3]; norm_num
  refine ⟨?_, ?_, ?_, ?_⟩
  · rw [pyInt_pyFloorDiv, f1]
  · rw [m1, pyInt_pyFloorDiv]
    exact floor_eq_of _ _ (by norm_num) (by norm_num)
  · rw [m2]; exact pyInt_eq_of_nonneg _ _ (by norm_num) (by norm_num) (by norm_num)
  · rw [m3]; exact pyInt_eq_of_nonneg _ _ (by norm_num) (by norm_num) (by norm_num)

lemma fst_zero : format_srt_timestamp 0 = "00:00:00,000" := by
  obtain ⟨h1, h2, h3, h4⟩ := comp_zero
  rw [format_srt_timestamp_eval 0 0 0 0 0 h1 h2 h3 h4]; decide

lemma fst_three_halves : format_srt_timestamp 1.5 = "00:00:01,500" := by
  obtain ⟨h1, h2, h3, h4⟩ := comp_three_halves
  rw [format_srt_timestamp_eval 1.5 0 0 1 500 h1 h2 h3 h4]; decide

lemma fst_three : format_srt_timestamp 3 = "00:00:03,000" := by
  obtain ⟨h1, h2, h3, h4⟩ := comp_three
  rw [format_srt_timestamp_eval 3 0 0 3 0 h1 h2 h3 h4]; decide

lemma map_enumFrom_ofFn {α β : Type _} (f : ℕ → α → β) :
    ∀ (l : List α) (n : ℕ),
      (List.enumFrom n l).map (fun p => f p.1 p.2)
        = List.ofFn fun k : Fin l.length => f (n + k) (l.get k) := by
  intro l
  induction l with
  | nil => intro n; simp
  | cons a l ih =>
    intro n
    simp only [List.enumFrom, List.map_cons, List.length_cons, List.ofFn_succ,
      Fin.val_zero, Nat.add_zero, List.get_cons_zero, List.get_cons_succ]
    refine congrArg (f n a :: ·) ?_
    rw [ih (n + 1)]
    refine congrArg List.ofFn (funext fun k => ?_)
    have : n + (k.val + 1) = n + 1 + k.val := by omega
    simp [Fin.val_succ, this]

end TimestampFacts

/-- Claim C4: the three timestamp formatters on input 3661.25 seconds return
`"01:01:01"`, `"01:01:01,250"` and `"01:01:01.250"` respectively. -/
theorem timestamp_values_C4 :
    format_timestamp (3661.25 : ℚ) = "01:01:01"
    ∧ format_srt_timestamp (3661.25 : ℚ) = "01:01:01,250"
    ∧ format_vtt_timestamp (3661.25 : ℚ) = "01:01:01.250" := by
  obtain ⟨h1, h2, h3, h4⟩ := comp_3661
  refine ⟨?_, ?_, ?_⟩
  · rw [format_timestamp_eval _ 1 1 1 h1 h2 h3]; decide
  · rw [format_srt_timestamp_eval _ 1 1 1 250 h1 h2 h3 h4]; decide
  · rw [format_vtt_timestamp_eval _ 1 1 1 250 h1 h2 h3 h4]; decide

/-- Claim C5: for every nonnegative seconds value, the SRT and the VTT
timestamp strings are the plain `HH:MM:SS` string with the same millisecond
field appended, differing only in the separator (comma versus period) — so
both share the plain formatter's `(hours, minutes, seconds)` decomposition
and the same milliseconds. -/
theorem srt_vtt_decompose_C5 (s : ℚ) (hs : 0 ≤ s) :
    format_srt_timestamp s
      = format_timestamp s ++ "," ++ pad3 (pyInt (pyMod s 1 * 1000))
    ∧ format_vtt_timestamp s
      = format_timestamp s ++ "." ++ pad3 (pyInt (pyMod s 1 * 1000)) := by
  constructor <;> simp only [format_srt_timestamp, format_vtt_timestamp, format_timestamp]

/-- Witness for C5 at the concrete input 3661.25. -/
theorem srt_vtt_decompose_C5_witness :
    (0 : ℚ) ≤ 3661.25
    ∧ (format_srt_timestamp 3661.25
        = format_timestamp 3661.25 ++ "," ++ pad3 (pyInt (pyMod 3661.25 1 * 1000))
      ∧ format_vtt_timestamp 3661.25
        = format_timestamp 3661.25 ++ "." ++ pad3 (pyInt (pyMod 3661.25 1 * 1000))) :=
  ⟨by norm_num, srt_vtt_decompose_C5 3661.25 (by norm_num)⟩

/-- Claim C3: the SRT renderer on the two example segments returns exactly the
specified document, and in general the document is the newline-join of the
per-segment blocks, the block of the `k`-th segment (0-based) carrying the
1-based index `1 + k` and that segment's trimmed text. -/
theorem format_srt_blocks_C3 :
    format_srt [⟨0, 1.5, "Hello "⟩, ⟨1.5, 3, "world"⟩]
      = "1\n00:00:00,000 --> 00:00:01,500\nHello\n\n2\n00:00:01,500 --> 00:00:03,000\nworld\n"
    ∧ ∀ segments : List Segment,
        format_srt segments
          = String.intercalate "\n"
              (List.ofFn fun k : Fin segments.length =>
                srt_block (1 + k) (segments.get k)) := by
  constructor
  · show String.intercalate "\n"
      ((List.enumFrom 1 [⟨0, 1.5, "Hello "⟩, ⟨1.5, 3, "world"⟩]).map
        fun p => srt_block p.1 p.2) = _
    have e : (List.enumFrom 1 [(⟨0, 1.5, "Hello "⟩ : Segment), ⟨1.5, 3, "world"⟩])
        = [(1, ⟨0, 1.5, "Hello "⟩), (2, ⟨1.5, 3, "world"⟩)] := rfl
    rw [e]
    simp only [List.map_cons, List.map_nil]
    rw [show srt_block 1 ⟨0, 1.5, "Hello "⟩
          = "1" ++ "\n" ++ format_srt_timestamp 0 ++ " --> " ++ format_srt_timestamp 1.5
            ++ "\n" ++ pyStrip "Hello " ++ "\n" from rfl,
        show srt_block 2 ⟨1.5, 3, "world"⟩
          = "2" ++ "\n" ++ format_srt_timestamp 1.5 ++ " --> " ++ format_srt_timestamp 3
            ++ "\n" ++ pyStrip "world" ++ "\n" from rfl,
        fst_zero, fst_three_halves, fst_three]
    decide
  · intro segments
    rw [format_srt, map_enumFrom_ofFn srt_block segments 1]

/-! Title sanitizer / naming resolver (`get_video_title`, src/app.py:31-48). -/

/-- Decimal digit list of a natural number, via structural fuel recursion so
the kernel can evaluate it (`n + 1` units of fuel always suffice). -/
def natDigitsAux : ℕ → ℕ → List Char
  | 0, _ => []
  | fuel + 1, n =>
    if n < 10 then [Nat.digitChar n]
    else natDigitsAux fuel (n / 10) ++ [Nat.digitChar (n % 10)]

/-- Decimal digit list of a natural number, most significant first. -/
def natDigits (n : ℕ) : List Char := natDigitsAux (n + 1) n

/-- Zero-padding to a fixed width, as CPython strftime does for each field. -/
def padNat (w n : ℕ) : String :=
  ⟨List.replicate (w - (natDigits n).length) '0' ++ natDigits n⟩

/-- A wall-clock instant, as observed by `datetime.now()`. -/
structure PyDateTime where
  year : ℕ
  month : ℕ
  day : ℕ
  hour : ℕ
  minute : ℕ
  second : ℕ
deriving DecidableEq

/-- The field ranges `datetime.now()` guarantees. -/
def PyDateTime.Valid (t : PyDateTime) : Prop :=
  t.year ≤ 9999 ∧ 1 ≤ t.month ∧ t.month ≤ 12 ∧ 1 ≤ t.day ∧ t.day ≤ 31
    ∧ t.hour ≤ 23 ∧ t.minute ≤ 59 ∧ t.second ≤ 59

instance (t : PyDateTime) : Decidable t.Valid := by
  unfold PyDateTime.Valid; infer_instance

/-- Modelled from the external CPython call
`datetime.now().strftime("%Y%m%d_%H%M%S")`: year zero-padded to 4 digits, the
remaining fields to 2, with an underscore between date and time. -/
def strftime_compact (t : PyDateTime) : String :=
  padNat 4 t.year ++ padNat 2 t.month ++ padNat 2 t.day ++ "_" ++
    padNat 2 t.hour ++ padNat 2 t.minute ++ padNat 2 t.second

/-- Metadata returned by a successful `ydl.extract_info(url, download=False)`:
the `title` and `id` fields, each possibly absent. -/
structure VideoInfo where
  title : Option String
  id : Option String
deriving DecidableEq

/-- Python `a or b` on two optional strings: the first operand unless it is
falsy (`None` or the empty string). -/
def pyOr (a b : Option String) : Option String :=
  match a with
  | some s => if s = "" then b else some s
  | none => b

/-- The reserved characters stripped by `get_video_title` (src/app.py:39). -/
def invalid_chars : List Char := ['<', '>', ':', '"', '/', '\\', '|', '?', '*']

/-- Python `title.replace(char, "")`: drop every occurrence of one character. -/
def removeChar (s : String) (c : Char) : String := ⟨s.data.filter (· ≠ c)⟩

/-- The replace loop and the length cap of src/app.py:39-44: strip every
reserved character, then truncate to 100 characters. -/
def sanitize_title (t : String) : String :=
  let stripped := invalid_chars.foldl removeChar t
  if stripped.length > 100 then ⟨stripped.data.take 100⟩ else stripped

/-- The try-block of `get_video_title` (src/app.py:33-45): fails when the
metadata probe raises, and also when `title` and `id` are both absent, since
Python then evaluates `None.replace(...)` and raises an `AttributeError`
inside the same guarded block. -/
def get_video_title_body (lookup : Except Unit VideoInfo) : Except Unit String :=
  match lookup with
  | .error e => .error e
  | .ok info =>
    match pyOr info.title info.id with
    | none => .error ()
    | some t => .ok (sanitize_title t)

/-- Source `get_video_title` (src/app.py:31-48). The metadata probe enters as
an `Except` value (`.error` when `extract_info` raises); `now` is the instant
`datetime.now()` would observe in the handler. Any failure of the guarded
block is caught and answered with the timestamp fallback name. -/
def get_video_title (lookup : Except Unit VideoInfo) (now : PyDateTime) : String :=
  match get_video_title_body lookup with
  | .ok r => r
  | .error _ => "video_" ++ strftime_compact now

section TitleFacts

lemma natDigitsAux_stable :
    ∀ (f1 f2 n : ℕ), n < f1 → n < f2 → natDigitsAux f1 n = natDigitsAux f2 n := by
  intro f1
  induction f1 with
  | zero => intro f2 n h1; omega
  | succ g ih =>
    intro f2 n h1 h2
    cases f2 with
    | zero => omega
    | succ h =>
      simp only [natDigitsAux]
      by_cases hn : n < 10
      · simp [hn]
      · have hd : n / 10 < n := Nat.div_lt_self (by omega) (by omega)
        simp only [if_neg hn]
        rw [ih h (n / 10) (by omega) (by omega)]

lemma natDigits_eq (n : ℕ) :
    natDigits n = if n < 10 then [Nat.digitChar n]
      else natDigits (n / 10) ++ [Nat.digitChar (n % 10)] := by
  unfold natDigits
  conv_lhs => rw [natDigitsAux]
  by_cases hn : n < 10
  · simp [hn]
  · have hd : n / 10 < n := Nat.div_lt_self (by omega) (by omega)
    simp only [if_neg hn]
    rw [natDigitsAux_stable n (n / 10 + 1) (n / 10) (by omega) (by omega)]

lemma digitChar_isDigit (n : ℕ) (h : n < 10) : (Nat.digitChar n).isDigit = true := by
  interval_cases n <;> decide

lemma natDigits_all_digits : ∀ n : ℕ, ∀ c ∈ natDigits n, c.isDigit = true := by
  intro n
  induction n using Nat.strong_induction_on with
  | _ n ih =>
    rw [natDigits_eq]
    by_cases hn : n < 10
    · simp only [if_pos hn, List.mem_singleton]
      rintro c rfl
      exact digitChar_isDigit n hn
    · simp only [if_neg hn, List.mem_append, List.mem_singleton]
      rintro c (hc | rfl)
      · exact ih (n / 10) (Nat.div_lt_self (by omega) (by omega)) c hc
      · exact digitChar_isDigit _ (Nat.mod_lt _ (by omega))

lemma natDigits_length_le : ∀ k : ℕ, 1 ≤ k → ∀ n : ℕ, n < 10 ^ k →
    (natDigits n).length ≤ k := by
  intro k
  induction k with
  | zero => omega
  | succ j ih =>
    intro _ n hn
    rw [natDigits_eq]
    by_cases h10 : n < 10
    · simp [h10]
    · simp only [if_neg h10, List.length_append, List.length_singleton]
      have hj : 1 ≤ j := by
        by_contra hj
        have : j = 0 := by omega
        subst this
        simp at hn
        omega
      have : n / 10 < 10 ^ j := by
        rw [Nat.div_lt_iff_lt_mul (by omega)]
        calc n < 10 ^ (j + 1) := hn
        _ = 10 ^ j * 10 := by ring
      have := ih hj (n / 10) this
      omega

lemma padNat_length (w n : ℕ) (h : (natDigits n).length ≤ w) :
    (padNat w n).length = w := by
  show (List.replicate (w - (natDigits n).length) '0' ++ natDigits n).length = w
  rw [List.length_append, List.length_replicate]
  omega

lemma padNat_all_digits (w n : ℕ) : ∀ c ∈ (padNat w n).data, c.isDigit = true := by
  intro c hc
  rcases List.mem_append.mp hc with h | h
  · rw [List.eq_of_mem_replicate h]; decide
  · exact natDigits_all_digits n c h

lemma removeChar_not_mem (s : String) (c : Char) : c ∉ (removeChar s c).data := by
  intro h
  have := List.of_mem_filter h
  simp at this

lemma removeChar_preserves (s : String) (c d : Char) (h : c ∉ s.data) :
    c ∉ (removeChar s d).data := fun hm => h (List.mem_of_mem_filter hm)

lemma foldl_removeChar_preserves :
    ∀ (l : List Char) (s : String) (c : Char), c ∉ s.data →
      c ∉ (l.foldl removeChar s).data := by
  intro l
  induction l with
  | nil => intro s c h; exact h
  | cons d l ih =>
    intro s c h
    exact ih (removeChar s d) c (removeChar_preserves s c d h)

lemma foldl_removeChar_removes :
    ∀ (l : List Char) (s : String) (c : Char), c ∈ l →
      c ∉ (l.foldl removeChar s).data := by
  intro l
  induction l with
  | nil => intro s c h; simp at h
  | cons d l ih =>
    intro s c h
    rcases List.mem_cons.mp h with rfl | hmem
    · exact foldl_removeChar_preserves l (removeChar s c) c (removeChar_not_mem s c)
    · exact ih (removeChar s d) c hmem

lemma sanitize_title_no_invalid (t : String) :
    ∀ c ∈ (sanitize_title t).data, c ∉ invalid_chars := by
  intro c hc hmem
  have hstrip : c ∉ (invalid_chars.foldl removeChar t).data :=
    foldl_removeChar_removes invalid_chars t c hmem
  unfold sanitize_title at hc
  by_cases hlen : (invalid_chars.foldl removeChar t).length > 100
  · rw [if_pos hlen] at hc
    exact hstrip (List.mem_of_mem_take hc)
  · rw [if_neg hlen] at hc
    exact hstrip hc

lemma sanitize_title_length (t : String) : (sanitize_title t).length ≤ 100 := by
  unfold sanitize_title
  by_cases hlen : (invalid_chars.foldl removeChar t).length > 100
  · rw [if_pos hlen]
    show (List.take 100 _).length ≤ 100
    rw [List.length_take]
    omega
  · rw [if_neg hlen]
    omega

lemma isDigit_not_invalid (c : Char) (h : c.isDigit = true) : c ∉ invalid_chars := by
  intro hmem
  fin_cases hmem <;> exact absurd h (by decide)

lemma strftime_chars (now : PyDateTime) :
    ∀ c ∈ (strftime_compact now).data, c.isDigit = true ∨ c = '_' := by
  intro c h
  unfold strftime_compact at h
  simp only [String.data_append, List.mem_append] at h
  rcases h with ((((((h | h) | h) | h) | h) | h) | h)
  · exact Or.inl (padNat_all_digits 4 _ c h)
  · exact Or.inl (padNat_all_digits 2 _ c h)
  · exact Or.inl (padNat_all_digits 2 _ c h)
  · right
    simpa using h
  · exact Or.inl (padNat_all_digits 2 _ c h)
  · exact Or.inl (padNat_all_digits 2 _ c h)
  · exact Or.inl (padNat_all_digits 2 _ c h)

lemma video_prefix_ok : ∀ c ∈ ("video_" : String).data, c ∉ invalid_chars := by
  decide

lemma fallback_no_invalid (now : PyDateTime) :
    ∀ c ∈ ("video_" ++ strftime_compact now).data, c ∉ invalid_chars := by
  intro c hc
  rw [String.data_append] at hc
  rcases List.mem_append.mp hc with h | h
  · exact video_prefix_ok c h
  · rcases strftime_chars now c h with hd | rfl
    · exact isDigit_not_invalid c hd
    · decide

lemma padNat_lengths (now : PyDateTime) (hv : now.Valid) :
    (padNat 4 now.year).length = 4
    ∧ (padNat 2 now.month).length = 2 ∧ (padNat 2 now.day).length = 2
    ∧ (padNat 2 now.hour).length = 2 ∧ (padNat 2 now.minute).length = 2
    ∧ (padNat 2 now.second).length = 2 := by
  obtain ⟨h1, h2, h3, h4, h5, h6, h7, h8⟩ := hv
  have e4 : (10 : ℕ) ^ 4 = 10000 := by norm_num
  have e2 : (10 : ℕ) ^ 2 = 100 := by norm_num
  exact ⟨padNat_length _ _ (natDigits_length_le 4 (by omega) _ (by omega)),
    padNat_length _ _ (natDigits_length_le 2 (by omega) _ (by omega)),
    padNat_length _ _ (natDigits_length_le 2 (by omega) _ (by omega)),
    padNat_length _ _ (natDigits_length_le 2 (by omega) _ (by omega)),
    padNat_length _ _ (natDigits_length_le 2 (by omega) _ (by omega)),
    padNat_length _ _ (natDigits_length_le 2 (by omega) _ (by omega))⟩

lemma fallback_length (now : PyDateTime) (hv : now.Valid) :
    ("video_" ++ strftime_compact now).length = 21 := by
  obtain ⟨l1, l2, l3, l4, l5, l6⟩ := padNat_lengths now hv
  rw [String.length_append]
  unfold strftime_compact
  simp only [String.length_append]
  rw [l1, l2, l3, l4, l5, l6]
  decide

lemma fallback_pattern (now : PyDateTime) (hv : now.Valid) :
    ∃ a b : String, "video_" ++ strftime_compact now = "video_" ++ a ++ "_" ++ b
      ∧ a.length = 8 ∧ b.length = 6
      ∧ (∀ c ∈ a.data, c.isDigit = true) ∧ (∀ c ∈ b.data, c.isDigit = true) := by
  obtain ⟨l1, l2, l3, l4, l5, l6⟩ := padNat_lengths now hv
  refine ⟨padNat 4 now.year ++ padNat 2 now.month ++ padNat 2 now.day,
    padNat 2 now.hour ++ padNat 2 now.minute ++ padNat 2 now.second, ?_, ?_, ?_, ?_, ?_⟩
  · unfold strftime_compact
    simp [String.append_assoc]
  · simp only [String.length_append]
    rw [l1, l2, l3]
  · simp only [String.length_append]
    rw [l4, l5, l6]
  · intro c hc
    simp only [String.data_append, List.mem_append] at hc
    rcases hc with (h | h) | h
    · exact padNat_all_digits 4 _ c h
    · exact padNat_all_digits 2 _ c h
    · exact padNat_all_digits 2 _ c h
  · intro c hc
    simp only [String.data_append, List.mem_append] at hc
    rcases hc with (h | h) | h
    · exact padNat_all_digits 2 _ c h
    · exact padNat_all_digits 2 _ c h
    · exact padNat_all_digits 2 _ c h

lemma get_video_title_shape (lookup : Except Unit VideoInfo) (now : PyDateTime) :
    (∃ t : String, get_video_title lookup now = sanitize_title t)
    ∨ get_video_title lookup now = "video_" ++ strftime_compact now := by
  unfold get_video_title get_video_title_body
  cases lookup with
  | error e => right; rfl
  | ok info =>
    cases h : pyOr info.title info.id with
    | none => right; simp [h]
    | some t => left; exact ⟨t, by simp [h]⟩

end TitleFacts

/-- Claim C6: on every input the title sanitizer returns a string free of the
reserved characters and of length at most 100, and whenever the metadata
lookup raises it returns a name of the shape `video_` followed by 8 digits,
an underscore and 6 digits. -/
theorem title_sanitizer_C6 (lookup : Except Unit VideoInfo) (now : PyDateTime)
    (hv : now.Valid) :
    (∀ c ∈ (get_video_title lookup now).data, c ∉ invalid_chars)
    ∧ (get_video_title lookup now).length ≤ 100
    ∧ (∀ e : Unit, lookup = .error e →
        ∃ a b : String, get_video_title lookup now = "video_" ++ a ++ "_" ++ b
          ∧ a.length = 8 ∧ b.length = 6
          ∧ (∀ c ∈ a.data, c.isDigit = true) ∧ (∀ c ∈ b.data, c.isDigit = true)) := by
  refine ⟨?_, ?_, ?_⟩
  · rcases get_video_title_shape lookup now with ⟨t, ht⟩ | hf
    · rw [ht]; exact sanitize_title_no_invalid t
    · rw [hf]; exact fallback_no_invalid now
  · rcases get_video_title_shape lookup now with ⟨t, ht⟩ | hf
    · rw [ht]; exact sanitize_title_length t
    · rw [hf, fallback_length now hv]; omega
  · rintro e rfl
    have : get_video_title (.error e) now = "video_" ++ strftime_compact now := rfl
    rw [this]
    exact fallback_pattern now hv

/-- Witness for C6: a concrete failing lookup at a concrete valid instant. -/
theorem title_sanitizer_C6_witness :
    PyDateTime.Valid ⟨2025, 10, 12, 15, 30, 0⟩
    ∧ ((∀ c ∈ (get_video_title (.error ()) ⟨2025, 10, 12, 15, 30, 0⟩).data,
          c ∉ invalid_chars)
      ∧ (get_video_title (.error ()) ⟨2025, 10, 12, 15, 30, 0⟩).length ≤ 100
      ∧ (∀ e : Unit, (.error () : Except Unit VideoInfo) = .error e →
          ∃ a b : String,
            get_video_title (.error ()) ⟨2025, 10, 12, 15, 30, 0⟩
              = "video_" ++ a ++ "_" ++ b
            ∧ a.length = 8 ∧ b.length = 6
            ∧ (∀ c ∈ a.data, c.isDigit = true) ∧ (∀ c ∈ b.data, c.isDigit = true))) :=
  ⟨by decide, title_sanitizer_C6 (.error ()) ⟨2025, 10, 12, 15, 30, 0⟩ (by decide)⟩

/-- Claim C10: a successful metadata lookup carrying neither a title nor an id
still yields the timestamp fallback (the in-block failure is caught), and for
every input the resolver returns normally — either a sanitized title or the
fallback name, never a propagated exception. -/
theorem missing_metadata_fallback_C10 :
    (∀ now : PyDateTime,
        get_video_title (.ok ⟨none, none⟩) now = "video_" ++ strftime_compact now)
    ∧ ∀ (lookup : Except Unit VideoInfo) (now : PyDateTime),
        (∃ t : String, get_video_title lookup now = sanitize_title t)
        ∨ get_video_title lookup now = "video_" ++ strftime_compact now :=
  ⟨fun _ => rfl, fun lookup now => get_video_title_shape lookup now⟩

/-! Model handle cache (`load_model`, src/app.py:23-29). -/

/-- The mutable fields of `WhisperTranscriber` touched by `load_model`. The
external `whisper.load_model(name)` handle is modelled by the identifier it
was loaded with, and `loadCount` counts the external load calls performed. -/
structure TranscriberState where
  model : Option String
  model_name : Option String
  loadCount : ℕ
deriving DecidableEq

/-- The freshly constructed transcriber: `self.model = None`,
`self.model_name = None`, no load performed yet. -/
def initTranscriber : TranscriberState := ⟨none, none, 0⟩

/-- Source `load_model` (src/app.py:23-29): load the model when none is
cached or a different identifier is cached, otherwise no-op; the returned
message distinguishes the two outcomes. -/
def load_model (self : TranscriberState) (model_name : String) :
    TranscriberState × String :=
  if self.model = none ∨ self.model_name ≠ some model_name then
    (⟨some model_name, some model_name, self.loadCount + 1⟩,
      "✓ Model " ++ model_name ++ " loaded successfully")
  else
    (self, "✓ Model " ++ model_name ++ " already loaded")

/-- Claim C7: `load_model` performs a load exactly when no handle is cached
or the cached identifier differs, replacing the cache entry in that case and
leaving the state untouched otherwise, with distinguishing status messages;
two consecutive calls with `"base"` perform one load, while `"base"` then
`"small"` perform two, the second evicting the first. -/
theorem model_cache_C7 :
    (∀ (st : TranscriberState) (name : String),
      ((load_model st name).1.loadCount = st.loadCount + 1
          ↔ st.model = none ∨ st.model_name ≠ some name)
      ∧ (st.model = none ∨ st.model_name ≠ some name →
          (load_model st name).1 = ⟨some name, some name, st.loadCount + 1⟩
          ∧ (load_model st name).2 = "✓ Model " ++ name ++ " loaded successfully")
      ∧ (¬(st.model = none ∨ st.model_name ≠ some name) →
          (load_model st name).1 = st
          ∧ (load_model st name).2 = "✓ Model " ++ name ++ " already loaded"))
    ∧ ((load_model (load_model initTranscriber "base").1 "base").1.loadCount = 1
        ∧ (load_model (load_model initTranscriber "base").1 "base").1.model_name
            = some "base")
    ∧ ((load_model (load_model initTranscriber "base").1 "small").1.loadCount = 2
        ∧ (load_model (load_model initTranscriber "base").1 "small").1.model_name
            = some "small"
        ∧ (load_model (load_model initTranscriber "base").1 "small").1.model
            = some "small") := by
  refine ⟨fun st name => ?_, by decide, by decide⟩
  unfold load_model
  split_ifs with h
  · exact ⟨by simp [h], fun _ => ⟨rfl, rfl⟩, fun hn => absurd h hn⟩
  · refine ⟨iff_of_false ?_ h, fun hp => absurd hp h, fun _ => ⟨rfl, rfl⟩⟩
    show ¬ st.loadCount = st.loadCount + 1
    omega

/-- Witness for C7: the general clause applied to the fresh transcriber and
the identifier `"base"` (the cache is empty, so a load is performed). -/
theorem model_cache_C7_witness :
    (load_model initTranscriber "base").1
        = ⟨some "base", some "base", initTranscriber.loadCount + 1⟩
    ∧ (load_model initTranscriber "base").2
        = "✓ Model " ++ "base" ++ " loaded successfully" :=
  ((model_cache_C7.1 initTranscriber "base").2.1 (Or.inl rfl))

/-! Pipeline orchestrator (`process_youtube_url`, src/app.py:165-242, and
`process_file_upload`, src/app.py:244-289). Both are Python generators; the
embedding of a run is the list of the tuples it yields. The outcomes of the
external stages enter as parameters: `dl` is what `download_youtube_audio`
returns (either `(audio_path, video_dir, None)` or `(None, None, error)`),
`tr` is the outcome of `transcribe_audio` (a result, or the message of the
exception it raised), `jsonDumps` is `json.dumps(result, indent=2)`,
`timestamp` is `datetime.now().strftime("%Y%m%d_%H%M%S")` at export time and
`tmpdir` is `tempfile.gettempdir()`. -/

/-- Result of `download_youtube_audio` (src/app.py:50-122): the audio path
with its job directory, or an error message. -/
inductive DownloadOutcome where
  | ok (audio_path : String) (video_dir : String)
  | err (msg : String)
deriving DecidableEq

/-- One tuple yielded by `process_youtube_url`:
`(status message, audio path, transcript, detailed transcript, export files)`. -/
structure YtObservation where
  message : String
  audio : Option String
  text : Option String
  detailed : Option String
  files : Option (List String)
deriving DecidableEq

/-- One tuple yielded by `process_file_upload`:
`(status message, transcript, detailed transcript, export files)`. -/
structure UploadObservation where
  message : String
  text : Option String
  detailed : Option String
  files : Option (List String)
deriving DecidableEq

/-- The temp-staged path of one export: the file name
`transcript_<timestamp>.<ext>` joined onto the temp directory
(src/app.py:350-351). -/
def export_path (tmpdir timestamp fmt : String) : String :=
  tmpdir ++ "/" ++ ("transcript_" ++ timestamp ++ "." ++ fmt)

/-- Source `create_export_files` (src/app.py:344-357): write each staged
export under the temp directory and return the list of paths, or `None` when
there is none. -/
def create_export_files (exports : List (String × String)) (timestamp tmpdir : String) :
    Option (List String) :=
  let files := exports.map fun p => export_path tmpdir timestamp p.1
  if files.isEmpty then none else some files

/-- The export dictionary built by `process_youtube_url` (src/app.py:206-226):
only `srt`, `vtt` and `json` are staged there (`txt` has no branch; the plain
transcript is persisted into the job directory instead). -/
def yt_exports (export_formats : List String) (result : TranscriptionResult)
    (jsonDumps : TranscriptionResult → String) : List (String × String) :=
  if export_formats.isEmpty then []
  else
    (if "srt" ∈ export_formats then [("srt", format_srt result.segments)] else [])
    ++ (if "vtt" ∈ export_formats then [("vtt", format_vtt result.segments)] else [])
    ++ (if "json" ∈ export_formats then [("json", jsonDumps result)] else [])

/-- The export dictionary built by `process_file_upload` (src/app.py:265-275):
all four formats have a branch. -/
def upload_exports (export_formats : List String) (text_output : String)
    (result : TranscriptionResult) (jsonDumps : TranscriptionResult → String) :
    List (String × String) :=
  if export_formats.isEmpty then []
  else
    (if "txt" ∈ export_formats then [("txt", text_output)] else [])
    ++ (if "srt" ∈ export_formats then [("srt", format_srt result.segments)] else [])
    ++ (if "vtt" ∈ export_formats then [("vtt", format_vtt result.segments)] else [])
    ++ (if "json" ∈ export_formats then [("json", jsonDumps result)] else [])

/-- The success status text of `process_youtube_url` (src/app.py:228-231). -/
def yt_success_status (result : TranscriptionResult) (video_dir : String) : String :=
  "✅ Transcription Complete!\n\n" ++ "Language: " ++ result.language.getD "Unknown"
    ++ "\n" ++ "Duration: ~" ++ toString result.segments.length ++ " segments\n"
    ++ "📁 Saved to: " ++ video_dir

/-- The success status text of `process_file_upload` (src/app.py:277-279). -/
def upload_success_status (result : TranscriptionResult) : String :=
  "✅ Transcription Complete!\n\n" ++ "Language: " ++ result.language.getD "Unknown"
    ++ "\n" ++ "Duration: ~" ++ toString result.segments.length ++ " segments"

/-- Source `process_youtube_url` (src/app.py:165-242), as the list of yielded
tuples. An empty URL takes the plain `return` before any `yield`, so that run
yields nothing. -/
def process_youtube_url (url model_name language task : String)
    (include_timestamps : Bool) (export_formats : List String)
    (dl : DownloadOutcome) (tr : Except String TranscriptionResult)
    (jsonDumps : TranscriptionResult → String) (timestamp tmpdir : String) :
    List YtObservation :=
  if url = "" then []
  else
    let obs1 : YtObservation :=
      ⟨"📥 Downloading audio from YouTube...", none, none, none, none⟩
    match dl with
    | .err e => [obs1, ⟨"❌ Download Error: " ++ e, none, none, none, none⟩]
    | .ok audio_path video_dir =>
      let obs2 : YtObservation :=
        ⟨"✓ Audio downloaded\n🎙️ Transcribing with Whisper (" ++ model_name ++ ")...",
          some audio_path, none, none, none⟩
      match tr with
      | .error e =>
        [obs1, obs2,
          ⟨"❌ Transcription Error: " ++ e, some audio_path, none, none, none⟩]
      | .ok result =>
        let text_output := pyStrip result.text
        let detailed_output :=
          if include_timestamps then format_with_timestamps result.segments else ""
        let exports := yt_exports export_formats result jsonDumps
        [obs1, obs2,
          ⟨yt_success_status result video_dir, some audio_path, some text_output,
            some detailed_output,
            if exports.isEmpty then none
            else create_export_files exports timestamp tmpdir⟩]

/-- Source `process_file_upload` (src/app.py:244-289), as the list of yielded
tuples. A missing upload takes the plain `return` before any `yield`. -/
def process_file_upload (audio_file : Option String) (model_name language task : String)
    (include_timestamps : Bool) (export_formats : List String)
    (tr : Except String TranscriptionResult)
    (jsonDumps : TranscriptionResult → String) (timestamp tmpdir : String) :
    List UploadObservation :=
  match audio_file with
  | none => []
  | some _ =>
    let obs1 : UploadObservation :=
      ⟨"🎙️ Transcribing with Whisper (" ++ model_name ++ ")...", none, none, none⟩
    match tr with
    | .error e => [obs1, ⟨"❌ Transcription Error: " ++ e, none, none, none⟩]
    | .ok result =>
      let text_output := pyStrip result.text
      let detailed_output :=
        if include_timestamps then format_with_timestamps result.segments else ""
      let exports := upload_exports export_formats text_output result jsonDumps
      [obs1,
        ⟨upload_success_status result, some text_output, some detailed_output,
          if exports.isEmpty then none
          else create_export_files exports timestamp tmpdir⟩]

section PipelineFacts

lemma staged_files (exports : List (String × String)) (timestamp tmpdir : String)
    (entry : String × String) (hmem : entry ∈ exports) :
    (if exports.isEmpty then none else create_export_files exports timestamp tmpdir)
      = some (exports.map fun p => export_path tmpdir timestamp p.1)
    ∧ export_path tmpdir timestamp entry.1
        ∈ exports.map fun p => export_path tmpdir timestamp p.1 := by
  refine ⟨?_, List.mem_map_of_mem _ hmem⟩
  cases exports with
  | nil => simp at hmem
  | cons a l =>
    show create_export_files (a :: l) timestamp tmpdir = _
    unfold create_export_files
    rfl

lemma yt_exports_has (export_formats : List String) (result : TranscriptionResult)
    (jsonDumps : TranscriptionResult → String) :
    ("srt" ∈ export_formats →
      ("srt", format_srt result.segments) ∈ yt_exports export_formats result jsonDumps)
    ∧ ("vtt" ∈ export_formats →
      ("vtt", format_vtt result.segments) ∈ yt_exports export_formats result jsonDumps)
    ∧ ("json" ∈ export_formats →
      ("json", jsonDumps result) ∈ yt_exports export_formats result jsonDumps) := by
  refine ⟨fun h => ?_, fun h => ?_, fun h => ?_⟩ <;>
    · have hne : export_formats ≠ [] := List.ne_nil_of_mem h
      have hie : export_formats.isEmpty = false := by simp [List.isEmpty_iff, hne]
      unfold yt_exports
      rw [if_neg (by simp [hie]), if_pos h]
      simp

lemma upload_exports_has (export_formats : List String) (text_output : String)
    (result : TranscriptionResult) (jsonDumps : TranscriptionResult → String) :
    ("txt" ∈ export_formats →
      ("txt", text_output) ∈ upload_exports export_formats text_output result jsonDumps)
    ∧ ("srt" ∈ export_formats →
      ("srt", format_srt result.segments)
        ∈ upload_exports export_formats text_output result jsonDumps)
    ∧ ("vtt" ∈ export_formats →
      ("vtt", format_vtt result.segments)
        ∈ upload_exports export_formats text_output result jsonDumps)
    ∧ ("json" ∈ export_formats →
      ("json", jsonDumps result)
        ∈ upload_exports export_formats text_output result jsonDumps) := by
  refine ⟨fun h => ?_, fun h => ?_, fun h => ?_, fun h => ?_⟩ <;>
    · have hne : export_formats ≠ [] := List.ne_nil_of_mem h
      have hie : export_formats.isEmpty = false := by simp [List.isEmpty_iff, hne]
      unfold upload_exports
      rw [if_neg (by simp [hie]), if_pos h]
      simp

lemma yt_run_last (url model_name language task : String) (include_timestamps : Bool)
    (export_formats : List String) (audio_path video_dir : String)
    (result : TranscriptionResult) (jsonDumps : TranscriptionResult → String)
    (timestamp tmpdir : String) (hurl : url ≠ "") :
    (process_youtube_url url model_name language task include_timestamps
        export_formats (.ok audio_path video_dir) (.ok result) jsonDumps timestamp
        tmpdir).getLast?
      = some ⟨yt_success_status result video_dir, some audio_path,
          some (pyStrip result.text),
          some (if include_timestamps then format_with_timestamps result.segments
            else ""),
          if (yt_exports export_formats result jsonDumps).isEmpty then none
          else create_export_files (yt_exports export_formats result jsonDumps)
            timestamp tmpdir⟩ := by
  unfold process_youtube_url
  rw [if_neg hurl]
  rfl

lemma upload_run_last (upload_path model_name language task : String)
    (include_timestamps : Bool) (export_formats : List String)
    (result : TranscriptionResult) (jsonDumps : TranscriptionResult → String)
    (timestamp tmpdir : String) :
    (process_file_upload (some upload_path) model_name language task
        include_timestamps export_formats (.ok result) jsonDumps timestamp
        tmpdir).getLast?
      = some ⟨upload_success_status result, some (pyStrip result.text),
          some (if include_timestamps then format_with_timestamps result.segments
            else ""),
          if (upload_exports export_formats (pyStrip result.text) result
              jsonDumps).isEmpty then none
          else create_export_files
            (upload_exports export_formats (pyStrip result.text) result jsonDumps)
            timestamp tmpdir⟩ := rfl

end PipelineFacts

/-- Claim C1: for a URL-sourced job whose download fails, the terminal
observation carries neither an audio path nor a transcript; for one whose
download succeeds but whose transcription raises, the terminal observation
carries the audio path and no transcript — and it is the last element of the
run, so no further stage observation follows it. -/
theorem terminal_observation_C1 (url model_name language task : String)
    (include_timestamps : Bool) (export_formats : List String)
    (jsonDumps : TranscriptionResult → String) (timestamp tmpdir : String)
    (hurl : url ≠ "") :
    (∀ (e : String) (tr : Except String TranscriptionResult),
      (process_youtube_url url model_name language task include_timestamps
          export_formats (.err e) tr jsonDumps timestamp tmpdir).getLast?
        = some ⟨"❌ Download Error: " ++ e, none, none, none, none⟩)
    ∧ ∀ (audio_path video_dir e : String),
      (process_youtube_url url model_name language task include_timestamps
          export_formats (.ok audio_path video_dir) (.error e) jsonDumps timestamp
          tmpdir).getLast?
        = some ⟨"❌ Transcription Error: " ++ e, some audio_path, none, none,
            none⟩ := by
  constructor
  · intro e tr
    unfold process_youtube_url
    rw [if_neg hurl]
    rfl
  · intro audio_path video_dir e
    unfold process_youtube_url
    rw [if_neg hurl]
    rfl

/-- Witness for C1: a concrete URL-sourced run whose download fails. -/
theorem terminal_observation_C1_witness :
    ("u" : String) ≠ ""
    ∧ (process_youtube_url "u" "base" "auto" "transcribe" true ["srt"] (.err "boom")
        (.ok ⟨"t", none, []⟩) (fun _ => "") "20250101_000000" "/tmp").getLast?
      = some ⟨"❌ Download Error: " ++ "boom", none, none, none, none⟩ :=
  ⟨by decide,
    (terminal_observation_C1 "u" "base" "auto" "transcribe" true ["srt"] (fun _ => "")
      "20250101_000000" "/tmp" (by decide)).1 "boom" (.ok ⟨"t", none, []⟩)⟩

/-- Claim C9: with an empty URL (or an absent upload), the generator takes a
plain `return` before any `yield`, so the observation sequence of the run is
empty — there is no one-element error observation. -/
theorem empty_source_no_observation_C9 :
    (∀ (model_name language task : String) (include_timestamps : Bool)
        (export_formats : List String) (dl : DownloadOutcome)
        (tr : Except String TranscriptionResult)
        (jsonDumps : TranscriptionResult → String) (timestamp tmpdir : String),
      process_youtube_url "" model_name language task include_timestamps
        export_formats dl tr jsonDumps timestamp tmpdir = [])
    ∧ ∀ (model_name language task : String) (include_timestamps : Bool)
        (export_formats : List String) (tr : Except String TranscriptionResult)
        (jsonDumps : TranscriptionResult → String) (timestamp tmpdir : String),
      process_file_upload none model_name language task include_timestamps
        export_formats tr jsonDumps timestamp tmpdir = [] :=
  ⟨fun _ _ _ _ _ _ _ _ _ _ => rfl, fun _ _ _ _ _ _ _ _ _ => rfl⟩

/-- Observation `b` keeps every artifact observation `a` reported
(URL-sourced tuples). -/
def ytCarries (a b : YtObservation) : Prop :=
  (∀ v, a.audio = some v → b.audio = some v)
  ∧ (∀ v, a.text = some v → b.text = some v)
  ∧ (∀ v, a.detailed = some v → b.detailed = some v)
  ∧ (∀ v, a.files = some v → b.files = some v)

/-- Observation `b` keeps every artifact observation `a` reported
(upload-sourced tuples). -/
def uploadCarries (a b : UploadObservation) : Prop :=
  (∀ v, a.text = some v → b.text = some v)
  ∧ (∀ v, a.detailed = some v → b.detailed = some v)
  ∧ (∀ v, a.files = some v → b.files = some v)

/-- Claim C8: in every run of either entry point, any artifact reported by an
observation is still carried by every later observation of the same run,
including the terminal one on failure. -/
theorem monotone_observations_C8 :
    (∀ (url model_name language task : String) (include_timestamps : Bool)
        (export_formats : List String) (dl : DownloadOutcome)
        (tr : Except String TranscriptionResult)
        (jsonDumps : TranscriptionResult → String) (timestamp tmpdir : String),
      (process_youtube_url url model_name language task include_timestamps
          export_formats dl tr jsonDumps timestamp tmpdir).Pairwise ytCarries)
    ∧ ∀ (audio_file : Option String) (model_name language task : String)
        (include_timestamps : Bool) (export_formats : List String)
        (tr : Except String TranscriptionResult)
        (jsonDumps : TranscriptionResult → String) (timestamp tmpdir : String),
      (process_file_upload audio_file model_name language task include_timestamps
          export_formats tr jsonDumps timestamp tmpdir).Pairwise uploadCarries := by
  constructor
  · intro url model_name language task include_timestamps export_formats dl tr
      jsonDumps timestamp tmpdir
    unfold process_youtube_url
    by_cases h : url = ""
    · rw [if_pos h]
      exact List.Pairwise.nil
    · rw [if_neg h]
      cases dl with
      | err e => simp [List.pairwise_cons, ytCarries]
      | ok audio_path video_dir =>
        cases tr with
        | error e => simp [List.pairwise_cons, ytCarries]
        | ok result => simp [List.pairwise_cons, ytCarries]
      
  · intro audio_file model_name language task include_timestamps export_formats tr
      jsonDumps timestamp tmpdir
    cases audio_file with
    | none => exact List.Pairwise.nil
    | some f =>
      cases tr with
      | error e => simp [process_file_upload, List.pairwise_cons, uploadCarries]
      | ok result => simp [process_file_upload, List.pairwise_cons, uploadCarries]

/-- Witness for C8 (the property applied to one concrete run of each entry
point). -/
theorem monotone_observations_C8_witness :
    (process_youtube_url "u" "base" "auto" "transcribe" true ["srt"]
        (.ok "a.mp3" "d") (.error "boom") (fun _ => "") "20250101_000000"
        "/tmp").Pairwise ytCarries
    ∧ (process_file_upload (some "f.wav") "base" "auto" "transcribe" true ["srt"]
        (.error "boom") (fun _ => "") "20250101_000000" "/tmp").Pairwise
        uploadCarries :=
  ⟨monotone_observations_C8.1 "u" "base" "auto" "transcribe" true ["srt"]
      (.ok "a.mp3" "d") (.error "boom") (fun _ => "") "20250101_000000" "/tmp",
    monotone_observations_C8.2 (some "f.wav") "base" "auto" "transcribe" true ["srt"]
      (.error "boom") (fun _ => "") "20250101_000000" "/tmp"⟩

/-- Claim C2 as amended: when rendering succeeds, the upload-sourced entry
point stages a `transcript_<timestamp>.<ext>` file in the temp directory for
every requested format among txt, srt, vtt, json, while the URL-sourced entry
point does so only for srt, vtt and json (a requested txt export has no
staging branch there — the plain transcript is persisted into the job
directory instead); an empty export selection yields no export artifacts and
the run still ends with the success observation. -/
theorem export_staging_C2 (url model_name language task : String)
    (include_timestamps : Bool) (export_formats : List String)
    (audio_path video_dir upload_path : String) (result : TranscriptionResult)
    (jsonDumps : TranscriptionResult → String) (timestamp tmpdir : String)
    (hurl : url ≠ "") :
    (∀ fmt ∈ (["srt", "vtt", "json"] : List String), fmt ∈ export_formats →
      ∃ fl : List String,
        (process_youtube_url url model_name language task include_timestamps
            export_formats (.ok audio_path video_dir) (.ok result) jsonDumps
            timestamp tmpdir).getLast?.map YtObservation.files = some (some fl)
        ∧ export_path tmpdir timestamp fmt ∈ fl)
    ∧ (∀ fmt ∈ (["txt", "srt", "vtt", "json"] : List String), fmt ∈ export_formats →
      ∃ fl : List String,
        (process_file_upload (some upload_path) model_name language task
            include_timestamps export_formats (.ok result) jsonDumps timestamp
            tmpdir).getLast?.map UploadObservation.files = some (some fl)
        ∧ export_path tmpdir timestamp fmt ∈ fl)
    ∧ (export_formats = [] →
        (process_youtube_url url model_name language task include_timestamps
            export_formats (.ok audio_path video_dir) (.ok result) jsonDumps
            timestamp tmpdir).getLast?
          = some ⟨yt_success_status result video_dir, some audio_path,
              some (pyStrip result.text),
              some (if include_timestamps then format_with_timestamps result.segments
                else ""), none⟩
        ∧ (process_file_upload (some upload_path) model_name language task
            include_timestamps export_formats (.ok result) jsonDumps timestamp
            tmpdir).getLast?
          = some ⟨upload_success_status result, some (pyStrip result.text),
              some (if include_timestamps then format_with_timestamps result.segments
                else ""), none⟩) := by
  refine ⟨?_, ?_, ?_⟩
  · intro fmt hfmt hfe
    rw [yt_run_last url model_name language task include_timestamps export_formats
      audio_path video_dir result jsonDumps timestamp tmpdir hurl]
    obtain ⟨hsrt, hvtt, hjson⟩ := yt_exports_has export_formats result jsonDumps
    simp only [List.mem_cons, List.not_mem_nil, or_false] at hfmt
    rcases hfmt with rfl | rfl | rfl
    · obtain ⟨hslot, hin⟩ := staged_files _ timestamp tmpdir _ (hsrt hfe)
      exact ⟨_, by simp only [Option.map_some']; rw [hslot], hin⟩
    · obtain ⟨hslot, hin⟩ := staged_files _ timestamp tmpdir _ (hvtt hfe)
      exact ⟨_, by simp only [Option.map_some']; rw [hslot], hin⟩
    · obtain ⟨hslot, hin⟩ := staged_files _ timestamp tmpdir _ (hjson hfe)
      exact ⟨_, by simp only [Option.map_some']; rw [hslot], hin⟩
  · intro fmt hfmt hfe
    rw [upload_run_last upload_path model_name language task include_timestamps
      export_formats result jsonDumps timestamp tmpdir]
    obtain ⟨htxt, hsrt, hvtt, hjson⟩ :=
      upload_exports_has export_formats (pyStrip result.text) result jsonDumps
    simp only [List.mem_cons, List.not_mem_nil, or_false] at hfmt
    rcases hfmt with rfl | rfl | rfl | rfl
    · obtain ⟨hslot, hin⟩ := staged_files _ timestamp tmpdir _ (htxt hfe)
      exact ⟨_, by simp only [Option.map_some']; rw [hslot], hin⟩
    · obtain ⟨hslot, hin⟩ := staged_files _ timestamp tmpdir _ (hsrt hfe)
      exact ⟨_, by simp only [Option.map_some']; rw [hslot], hin⟩
    · obtain ⟨hslot, hin⟩ := staged_files _ timestamp tmpdir _ (hvtt hfe)
      exact ⟨_, by simp only [Option.map_some']; rw [hslot], hin⟩
    · obtain ⟨hslot, hin⟩ := staged_files _ timestamp tmpdir _ (hjson hfe)
      exact ⟨_, by simp only [Option.map_some']; rw [hslot], hin⟩
  · rintro rfl
    constructor
    · rw [yt_run_last url model_name language task include_timestamps []
        audio_path video_dir result jsonDumps timestamp tmpdir hurl]
      rfl
    · rw [upload_run_last upload_path model_name language task include_timestamps
        [] result jsonDumps timestamp tmpdir]
      rfl

/-- Witness for C2: concrete runs with all four formats requested; the
URL-sourced run stages the srt export, the upload-sourced run also stages the
txt export. -/
theorem export_staging_C2_witness :
    (∃ fl : List String,
      (process_youtube_url "u" "base" "auto" "transcribe" true
          ["txt", "srt", "vtt", "json"] (.ok "a.mp3" "d") (.ok ⟨"hi", some "en", []⟩)
          (fun _ => "") "20250101_000000" "/tmp").getLast?.map YtObservation.files
        = some (some fl)
      ∧ export_path "/tmp" "20250101_000000" "srt" ∈ fl)
    ∧ ∃ fl : List String,
      (process_file_upload (some "f.wav") "base" "auto" "transcribe" true
          ["txt", "srt", "vtt", "json"] (.ok ⟨"hi", some "en", []⟩)
          (fun _ => "") "20250101_000000" "/tmp").getLast?.map UploadObservation.files
        = some (some fl)
      ∧ export_path "/tmp" "20250101_000000" "txt" ∈ fl :=
  ⟨(export_staging_C2 "u" "base" "auto" "transcribe" true ["txt", "srt", "vtt", "json"]
      "a.mp3" "d" "f.wav" ⟨"hi", some "en", []⟩ (fun _ => "") "20250101_000000" "/tmp"
      (by decide)).1 "srt" (by decide) (by decide),
    (export_staging_C2 "u" "base" "auto" "transcribe" true ["txt", "srt", "vtt", "json"]
      "a.mp3" "d" "f.wav" ⟨"hi", some "en", []⟩ (fun _ => "") "20250101_000000" "/tmp"
      (by decide)).2.1 "txt" (by decide) (by decide)⟩

/-- Counterexample to C2 as stated: a URL-sourced run that requested only the
txt export; rendering succeeded, txt is one of the four formats, yet the
terminal observation stages no export file at all. -/
theorem export_staging_C2_counterexample :
    (process_youtube_url "u" "base" "auto" "transcribe" true ["txt"]
        (.ok "a.mp3" "d") (.ok ⟨"hi", some "en", []⟩) (fun _ => "")
        "20250101_000000" "/tmp").getLast?.map YtObservation.files
      = some none := by
  decide


